import Mathlib

/-!
Shallow embedding of ProxBoard (`src/ProxBoardService.ts`, the Bun service
imported by `index.ts`, together with its Node duplicate among the unnamed
source files) and proofs about its frame codec, port allocator, session
registry and control channel.

Modelling conventions:
* JavaScript strings appear where the code only ever observes their UTF-8
  byte encoding (hostnames travelling in frames, endpoint addresses), and
  are modelled as `List Nat` of bytes; `TextEncoder`/`Buffer.from(·,'utf8')`
  is the identity on this representation, and a string is empty/falsy
  exactly when its byte list is `[]`.
* `ArrayBuffer`/`Buffer` values are `List Nat` of bytes.
* JavaScript numbers reaching `encodeProxyMessage`'s port argument and the
  `proxyHostPort` control-channel field are modelled as `Int` (the claims
  only concern integral values); `typeof x !== 'number'` is modelled by a
  `JVal` variant tag.
* Thrown exceptions become `Except String`.
-/

/-- Result of `decodeProxyMessage`: target hostname (UTF-8 bytes),
target port and payload bytes. -/
structure DecodedFrame where
  targetHost : List Nat
  targetPort : Nat
  payload : List Nat
  deriving DecidableEq, Repr

/-- `encodeProxyMessage(targetHost, targetPort, payload)` from
`src/ProxBoardService.ts` lines 29-54: rejects hostnames over 255 bytes and
ports outside `[1,65535]`, otherwise emits
`[hostnameLength] ++ hostname ++ bigEndian16(port) ++ payload`. -/
def encodeProxyMessage (targetHost : List Nat) (targetPort : Int)
    (payload : List Nat) : Except String (List Nat) :=
  if targetHost.length > 255 then
    .error "Hostname is too long (max 255 bytes)."
  else if targetPort < 1 ∨ targetPort > 65535 then
    .error "Target port must be between 1 and 65535."
  else
    .ok ([targetHost.length] ++ targetHost ++
      [targetPort.toNat / 256, targetPort.toNat % 256] ++ payload)

/-- `decodeProxyMessage(messageBuffer)` from `src/ProxBoardService.ts`
lines 56-75: length checks, then reads the hostname-length byte
(`msg.getD 0 0`), the hostname, the big-endian port, and takes everything
after the fixed header as payload; rejects an empty hostname and a port
outside `[1,65535]`. -/
def decodeProxyMessage (msg : List Nat) : Except String DecodedFrame :=
  if msg.length < 4 then .error "Malformed message: too short."
  else if msg.length < 1 + msg.getD 0 0 + 2 then
    .error "Malformed message: incomplete header."
  else if (msg.drop 1).take (msg.getD 0 0) = [] ∨
      msg.getD (1 + msg.getD 0 0) 0 * 256 + msg.getD (1 + msg.getD 0 0 + 1) 0 < 1 ∨
      msg.getD (1 + msg.getD 0 0) 0 * 256 + msg.getD (1 + msg.getD 0 0 + 1) 0 > 65535 then
    .error "Malformed message: Invalid host or port."
  else
    .ok ⟨(msg.drop 1).take (msg.getD 0 0),
      msg.getD (1 + msg.getD 0 0) 0 * 256 + msg.getD (1 + msg.getD 0 0 + 1) 0,
      msg.drop (1 + msg.getD 0 0 + 2)⟩

/-- `true` exactly when `decodeProxyMessage` throws. -/
def decodeFails (msg : List Nat) : Bool :=
  match decodeProxyMessage msg with
  | .error _ => true
  | .ok _ => false

section CodecLemmas

variable (host : List Nat) (x y : Nat) (rest : List Nat)

lemma frame_getD_zero :
    (host.length :: (host ++ ([x, y] ++ rest))).getD 0 0 = host.length := rfl

lemma frame_length :
    (host.length :: (host ++ ([x, y] ++ rest))).length
      = 1 + host.length + 2 + rest.length := by
  simp; omega

lemma frame_host :
    ((host.length :: (host ++ ([x, y] ++ rest))).drop 1).take host.length = host := by
  rw [List.drop_one, List.tail_cons]
  exact List.take_left host _

lemma frame_getD_hi :
    (host.length :: (host ++ ([x, y] ++ rest))).getD (1 + host.length) 0 = x := by
  rw [show (1 + host.length) = host.length + 1 by omega, List.getD_cons_succ,
    List.getD_append_right _ _ _ _ le_rfl]
  simp

lemma frame_getD_lo :
    (host.length :: (host ++ ([x, y] ++ rest))).getD (1 + host.length + 1) 0 = y := by
  rw [show (1 + host.length + 1) = (host.length + 1) + 1 by omega, List.getD_cons_succ,
    List.getD_append_right _ _ _ _ (by omega)]
  simp [show host.length + 1 - host.length = 1 by omega]

lemma frame_payload :
    (host.length :: (host ++ ([x, y] ++ rest))).drop (1 + host.length + 2) = rest := by
  rw [show (1 + host.length + 2) = (host.length + 2) + 1 by omega, List.drop_succ_cons,
    ← List.drop_drop, List.drop_left]
  rfl

end CodecLemmas

/-- C1: round-trip of the frame codec. For every hostname byte string of
length 1..255, port in `[1,65535]` and payload, `encodeProxyMessage`
succeeds and `decodeProxyMessage` recovers exactly the inputs. -/
theorem encode_decode_roundtrip (host : List Nat) (port : Nat) (payload : List Nat)
    (hlen1 : 1 ≤ host.length) (hlen2 : host.length ≤ 255)
    (hp1 : 1 ≤ port) (hp2 : port ≤ 65535) :
    ∃ buf, encodeProxyMessage host (port : Int) payload = .ok buf ∧
      decodeProxyMessage buf = .ok ⟨host, port, payload⟩ := by
  refine ⟨host.length :: (host ++ ([port / 256, port % 256] ++ payload)), ?_, ?_⟩
  · unfold encodeProxyMessage
    rw [if_neg (by omega), if_neg (by omega)]
    simp
  · unfold decodeProxyMessage
    rw [frame_getD_zero, frame_length, frame_host, frame_getD_hi, frame_getD_lo,
      frame_payload]
    have hport : port / 256 * 256 + port % 256 = port := by omega
    rw [hport]
    rw [if_neg (by omega), if_neg (by omega)]
    rw [if_neg ?_]
    push_neg
    refine ⟨fun h => ?_, by omega, by omega⟩
    rw [h] at hlen1
    simp at hlen1

/-- Witness for `encode_decode_roundtrip` at host "a" (byte 97), port 53,
payload [1, 2]. -/
theorem encode_decode_roundtrip_witness :
    ∃ buf, encodeProxyMessage [97] ((53 : Nat) : Int) [1, 2] = .ok buf ∧
      decodeProxyMessage buf = .ok ⟨[97], 53, [1, 2]⟩ :=
  encode_decode_roundtrip [97] 53 [1, 2] (by decide) (by decide) (by decide) (by decide)

/-- `true` exactly when `encodeProxyMessage` throws. -/
def encodeFails (targetHost : List Nat) (targetPort : Int) (payload : List Nat) : Bool :=
  match encodeProxyMessage targetHost targetPort payload with
  | .error _ => true
  | .ok _ => false

/-- C7: `encodeProxyMessage` fails whenever the hostname exceeds 255 bytes,
fails whenever the port is outside `[1,65535]`, and on all other inputs
returns the header-then-payload layout of total length
`1 + hostnameLength + 2 + payloadLength` (the function is pure, so it has
no side effects). -/
theorem encode_bounds (host : List Nat) (port : Int) (payload : List Nat) :
    (host.length > 255 → encodeFails host port payload = true)
    ∧ ((port < 1 ∨ port > 65535) → encodeFails host port payload = true)
    ∧ (host.length ≤ 255 → 1 ≤ port → port ≤ 65535 →
        encodeProxyMessage host port payload =
          .ok ([host.length] ++ host ++ [port.toNat / 256, port.toNat % 256] ++ payload)
        ∧ ([host.length] ++ host ++ [port.toNat / 256, port.toNat % 256] ++ payload).length
            = 1 + host.length + 2 + payload.length) := by
  refine ⟨fun h => ?_, fun h => ?_, fun h1 h2 h3 => ⟨?_, ?_⟩⟩
  · unfold encodeFails encodeProxyMessage
    rw [if_pos h]
  · unfold encodeFails encodeProxyMessage
    by_cases hl : host.length > 255
    · rw [if_pos hl]
    · rw [if_neg hl, if_pos h]
  · unfold encodeProxyMessage
    rw [if_neg (by omega), if_neg (by omega)]
  · simp
    omega

/-- Witness for `encode_bounds` at a 256-byte hostname, port 70000, and a
valid frame. -/
theorem encode_bounds_witness :
    encodeFails (List.replicate 256 97) 53 [5] = true
    ∧ encodeFails [97] 70000 [5] = true
    ∧ encodeProxyMessage [97] 53 [5] = .ok ([1] ++ [97] ++ [0, 53] ++ [5]) := by
  refine ⟨(encode_bounds (List.replicate 256 97) 53 [5]).1
    (by rw [List.length_replicate]; omega), ?_, ?_⟩
  · exact (encode_bounds [97] 70000 [5]).2.1 (by omega)
  · exact ((encode_bounds [97] 53 [5]).2.2 (by decide) (by decide) (by decide)).1

/-- C6: `decodeProxyMessage` fails exactly on malformed input — fewer than
4 bytes, a declared hostname length whose fixed header exceeds the buffer,
an empty decoded hostname, or a decoded port of 0 (with byte-valued input
the 2-byte port field cannot exceed 65535, so "outside [1,65535]" means 0)
— and on success the payload is every byte after the fixed header. -/
theorem decode_malformed_iff (msg : List Nat) (hb : ∀ b ∈ msg, b < 256) :
    (decodeFails msg = true ↔
      msg.length < 4 ∨ msg.length < 1 + msg.getD 0 0 + 2 ∨
        (msg.drop 1).take (msg.getD 0 0) = [] ∨
        msg.getD (1 + msg.getD 0 0) 0 * 256 + msg.getD (1 + msg.getD 0 0 + 1) 0 = 0)
    ∧ ∀ f, decodeProxyMessage msg = .ok f →
        f.payload = msg.drop (1 + msg.getD 0 0 + 2) := by
  have hlt : ∀ n, msg.getD n 0 < 256 := by
    intro n
    rcases Nat.lt_or_ge n msg.length with h | h
    · rw [List.getD_eq_getElem _ _ h]
      exact hb _ (List.getElem_mem h)
    · rw [List.getD_eq_default _ _ h]
      omega
  unfold decodeFails decodeProxyMessage
  split_ifs with h1 h2 h3
  · exact ⟨iff_of_true rfl (Or.inl h1), by simp⟩
  · exact ⟨iff_of_true rfl (Or.inr (Or.inl h2)), by simp⟩
  · constructor
    · refine iff_of_true rfl ?_
      rcases h3 with h | h | h
      · exact Or.inr (Or.inr (Or.inl h))
      · exact Or.inr (Or.inr (Or.inr (by omega)))
      · exact absurd h (by have := hlt (1 + msg.getD 0 0); have := hlt (1 + msg.getD 0 0 + 1); omega)
    · simp
  · push_neg at h3
    obtain ⟨hA, hq1, hq2⟩ := h3
    constructor
    · refine iff_of_false (by simp) ?_
      push_neg
      exact ⟨by omega, by omega, hA, by omega⟩
    · intro f hf
      rw [Except.ok.injEq] at hf
      rw [← hf]

/-- Witness for `decode_malformed_iff` at the valid frame
`[1, 65, 0, 53, 99]` (hostname "A", port 53, payload `[99]`). -/
theorem decode_malformed_iff_witness :
    (decodeFails [1, 65, 0, 53, 99] = true ↔
      ([1, 65, 0, 53, 99] : List Nat).length < 4 ∨
        ([1, 65, 0, 53, 99] : List Nat).length < 1 + ([1, 65, 0, 53, 99] : List Nat).getD 0 0 + 2 ∨
        (([1, 65, 0, 53, 99] : List Nat).drop 1).take (([1, 65, 0, 53, 99] : List Nat).getD 0 0) = [] ∨
        ([1, 65, 0, 53, 99] : List Nat).getD (1 + ([1, 65, 0, 53, 99] : List Nat).getD 0 0) 0 * 256 +
          ([1, 65, 0, 53, 99] : List Nat).getD (1 + ([1, 65, 0, 53, 99] : List Nat).getD 0 0 + 1) 0 = 0)
    ∧ ∀ f, decodeProxyMessage [1, 65, 0, 53, 99] = .ok f →
        f.payload = ([1, 65, 0, 53, 99] : List Nat).drop (1 + ([1, 65, 0, 53, 99] : List Nat).getD 0 0 + 2) :=
  decode_malformed_iff [1, 65, 0, 53, 99] (by decide)

/-- Any buffer whose hostname-length byte is 0 is rejected by
`decodeProxyMessage` (either as too short or as having an empty hostname). -/
lemma decodeFails_cons_zero (rest : List Nat) : decodeFails (0 :: rest) = true := by
  unfold decodeFails decodeProxyMessage
  by_cases h4 : (0 :: rest).length < 4
  · rw [if_pos h4]
  · rw [if_neg h4]
    have h0 : (0 :: rest).getD 0 0 = 0 := rfl
    rw [h0]
    have hlen : (0 :: rest).length = rest.length + 1 := rfl
    rw [hlen] at h4
    rw [if_neg (by rw [hlen]; omega)]
    simp

/-- C10: `encodeProxyMessage` accepts an empty hostname: for every port in
`[1,65535]` and payload it returns a buffer whose hostname-length byte is
0, and `decodeProxyMessage` rejects that buffer as malformed. -/
theorem encode_empty_hostname (port : Nat) (payload : List Nat)
    (hp1 : 1 ≤ port) (hp2 : port ≤ 65535) :
    encodeProxyMessage [] (port : Int) payload
        = .ok (0 :: ([port / 256, port % 256] ++ payload))
    ∧ (0 :: ([port / 256, port % 256] ++ payload)).getD 0 0 = 0
    ∧ decodeFails (0 :: ([port / 256, port % 256] ++ payload)) = true := by
  refine ⟨?_, rfl, decodeFails_cons_zero _⟩
  unfold encodeProxyMessage
  rw [if_neg (by simp), if_neg (by omega)]
  simp

/-- Witness for `encode_empty_hostname` at port 53 with payload `[7]`. -/
theorem encode_empty_hostname_witness :
    encodeProxyMessage [] ((53 : Nat) : Int) [7] = .ok (0 :: ([53 / 256, 53 % 256] ++ [7]))
    ∧ (0 :: (([53 / 256, 53 % 256] : List Nat) ++ [7])).getD 0 0 = 0
    ∧ decodeFails (0 :: ([53 / 256, 53 % 256] ++ [7])) = true :=
  encode_empty_hostname 53 [7] (by decide) (by decide)

/-- Outcome of one OS-level UDP bind attempt, as the Node implementation's
error handler distinguishes them (`err.code === 'EADDRINUSE'` versus any
other error; `listening` is a successful bind). -/
inductive BindResult where
  | ok
  | addrInUse
  | otherErr
  deriving DecidableEq, Repr

/-- `{ address, port }` endpoint. The address is the UTF-8 byte encoding of
the JavaScript string; the port is a raw JavaScript number (`Int`), since
`createProxy` stores whatever number the operator supplied. -/
structure Endpoint where
  address : List Nat
  port : Int
  deriving DecidableEq, Repr

/-- Registry entry (`ActiveProxy` in the source): the session's proxy-host
endpoint. The bound socket is identified by the registry key (the
allocated port), so it is not duplicated here. -/
structure ActiveProxy where
  proxyHost : Endpoint
  deriving DecidableEq, Repr

/-- State of the `ProxBoardService` instance: the configured port range and
the `activeProxies` map (an association list keyed by allocated port; the
claims are insensitive to iteration order). `closedSockets` records the
ports whose sockets have been closed, so that "closes the session's
socket" is observable. -/
structure ServiceState where
  minProxyPort : Nat
  maxProxyPort : Nat
  activeProxies : List (Nat × ActiveProxy)
  closedSockets : List Nat
  deriving DecidableEq, Repr

/-- `activeProxies.has(p)`. -/
def regHas (r : List (Nat × ActiveProxy)) (p : Nat) : Bool :=
  (r.lookup p).isSome

/-- The keys of the registry. -/
def regKeys (r : List (Nat × ActiveProxy)) : List Nat :=
  r.map (·.1)

/-- `activeProxies.delete(p)`. -/
def regErase (r : List (Nat × ActiveProxy)) (p : Nat) : List (Nat × ActiveProxy) :=
  r.filter (fun e => e.1 != p)

/-- `findAvailablePort` from `src/ProxBoardService.ts` lines 214-236 (the
Bun service): scan ports ascending from `minProxyPort` to `maxProxyPort`,
skip ports already in `activeProxies`, and return the first whose test
bind succeeds; every bind failure falls into the `catch` and continues.
Bind outcomes are modelled by the deterministic predicate `bindOk`. -/
def findAvailablePort (bindOk : Nat → Bool) (st : ServiceState) : Option Nat :=
  (List.range' st.minProxyPort (st.maxProxyPort + 1 - st.minProxyPort)).find?
    (fun p => !regHas st.activeProxies p && bindOk p)

/-- `findAvailablePort` from the Node implementation (unnamed part_000
lines 140-164): same scan, but its promise handler runs
`if (err.code === 'EADDRINUSE') resolve(); else reject(err)`, and a
resolved promise falls through to `return port` — so a candidate whose
bind fails with EADDRINUSE is returned, and only other bind errors reach
the `catch`-and-continue path. -/
def findAvailablePortNode (bind : Nat → BindResult) (occ : List (Nat × ActiveProxy))
    (lo hi : Nat) : Option Nat :=
  (List.range' lo (hi + 1 - lo)).find?
    (fun p => !regHas occ p && !(bind p == BindResult.otherErr))

/-- A control-channel JSON response, with the optional fields the service
actually emits. -/
structure Resp where
  status : String
  action : Option String
  message : Option String
  proxyPort : Option Nat
  proxies : Option (List (Nat × Endpoint))
  deriving DecidableEq, Repr

/-- A JSON value as far as `typeof x === 'number'` can see it: a number
with its (integral) value, or anything else. -/
inductive JVal where
  | num (n : Int)
  | notNum
  deriving DecidableEq, Repr

/-- `typeof x === 'number'`. -/
def JVal.isNum : JVal → Bool
  | .num _ => true
  | .notNum => false

/-- The numeric value (meaningful only when `isNum`). -/
def JVal.toInt : JVal → Int
  | .num n => n
  | .notNum => 0

/-- `createProxy` from `src/ProxBoardService.ts` lines 238-299. The guard
is exactly `!proxyHostAddress || typeof proxyHostPort !== 'number'`. The
second bind of the allocated port is modelled as succeeding, because
`bindOk availablePort` held during probing and binds are a deterministic
predicate here, so the `catch` branch is unreachable in the model. The
new entry is consed onto the association list (claims do not depend on
map iteration order). -/
def createProxy (bindOk : Nat → Bool) (st : ServiceState)
    (proxyHostAddress : List Nat) (proxyHostPort : JVal) : Resp × ServiceState :=
  if proxyHostAddress = [] ∨ proxyHostPort.isNum = false then
    (⟨"error", some "create", some "Invalid proxyHostAddress or proxyHostPort.",
      none, none⟩, st)
  else
    match findAvailablePort bindOk st with
    | none =>
        (⟨"error", some "create", some "No available proxy ports.", none, none⟩, st)
    | some availablePort =>
        (⟨"success", some "create",
          some ("Proxy created on port " ++ toString availablePort),
          some availablePort, none⟩,
         { st with activeProxies :=
            (availablePort, ⟨⟨proxyHostAddress, proxyHostPort.toInt⟩⟩)
              :: st.activeProxies })

/-- `stopProxy` from `src/ProxBoardService.ts` lines 301-312. -/
def stopProxy (st : ServiceState) (proxyPort : Nat) : Resp × ServiceState :=
  match st.activeProxies.lookup proxyPort with
  | none => (⟨"error", some "stop", some "Proxy not found.", none, none⟩, st)
  | some _ =>
      (⟨"success", some "stop",
        some ("Proxy on port " ++ toString proxyPort ++ " stopped."), none, none⟩,
       { st with activeProxies := regErase st.activeProxies proxyPort,
                 closedSockets := proxyPort :: st.closedSockets })

/-- `listProxies` from `src/ProxBoardService.ts` lines 314-320. -/
def listProxies (st : ServiceState) : Resp :=
  ⟨"success", some "list", none, none,
    some (st.activeProxies.map (fun e => (e.1, e.2.proxyHost)))⟩

/-- The per-session socket `error` callback (`src/ProxBoardService.ts`
lines 277-281): close the socket and delete the registry entry. -/
def handleUdpError (st : ServiceState) (availablePort : Nat) : ServiceState :=
  { st with activeProxies := regErase st.activeProxies availablePort,
            closedSockets := availablePort :: st.closedSockets }

/-- `shutdown` from `src/ProxBoardService.ts` lines 322-336: close every
proxy socket and empty the registry. -/
def shutdownService (st : ServiceState) : ServiceState :=
  { st with activeProxies := [],
            closedSockets := regKeys st.activeProxies ++ st.closedSockets }

/-- C3: the claim's concrete cases hold of the Bun allocator (skip
registered ports `{10000,10001}` in `[10000,10002]` and return `10002`;
a fully occupied or unbindable range yields `none`), but the Node
implementation breaks the "every bind failure moves to the next
candidate" part: with an empty registry and range `[10000,10000]`, a bind
failing with EADDRINUSE makes `findAvailablePortNode` return the in-use
port `10000`, where skipping it would exhaust the range and yield `none`
as the Bun allocator does. -/
theorem findAvailablePort_addrInUse_bug :
    findAvailablePortNode (fun _ => BindResult.addrInUse) [] 10000 10000 = some 10000
    ∧ findAvailablePort (fun _ => false) ⟨10000, 10000, [], []⟩ = none
    ∧ findAvailablePort (fun _ => true)
        ⟨10000, 10002,
          [(10000, ⟨⟨[], 0⟩⟩), (10001, ⟨⟨[], 0⟩⟩)], []⟩ = some 10002
    ∧ findAvailablePort (fun _ => true)
        ⟨10000, 10002,
          [(10000, ⟨⟨[], 0⟩⟩), (10001, ⟨⟨[], 0⟩⟩), (10002, ⟨⟨[], 0⟩⟩)], []⟩ = none := by
  refine ⟨?_, ?_, ?_, ?_⟩ <;> rfl

/-- A port returned by the Bun allocator lies in the configured range, is
not yet registered, and was bindable. -/
lemma findAvailablePort_mem (bindOk : Nat → Bool) (st : ServiceState) (p : Nat)
    (h : findAvailablePort bindOk st = some p) :
    st.minProxyPort ≤ p ∧ p ≤ st.maxProxyPort
      ∧ regHas st.activeProxies p = false ∧ bindOk p = true := by
  unfold findAvailablePort at h
  have hmem := List.mem_of_find?_eq_some h
  have hpred := List.find?_some h
  rw [List.mem_range'_1] at hmem
  rw [Bool.and_eq_true, Bool.not_eq_true'] at hpred
  exact ⟨by omega, by omega, hpred.1, hpred.2⟩

/-- Every key of the registry lies within `[minProxyPort, maxProxyPort]`. -/
def RegistryInv (st : ServiceState) : Prop :=
  ∀ q ∈ regKeys st.activeProxies, st.minProxyPort ≤ q ∧ q ≤ st.maxProxyPort

/-- C9: the registry-key range invariant is preserved by every operation
that mutates `activeProxies` — `createProxy` (which only ever inserts a
port returned by `findAvailablePort`), `stopProxy`, the per-session socket
error callback, and `shutdown`. -/
theorem registry_inv_preserved (bindOk : Nat → Bool) (st : ServiceState)
    (addr : List Nat) (pv : JVal) (q : Nat) (hinv : RegistryInv st) :
    RegistryInv (createProxy bindOk st addr pv).2
    ∧ RegistryInv (stopProxy st q).2
    ∧ RegistryInv (handleUdpError st q)
    ∧ RegistryInv (shutdownService st) := by
  have herase : ∀ (l : List (Nat × ActiveProxy)) (a b : Nat),
      b ∈ regKeys (regErase l a) → b ∈ regKeys l := by
    intro l a b h
    simp only [regKeys, regErase, List.mem_map] at h ⊢
    obtain ⟨e, he, rfl⟩ := h
    exact ⟨e, (List.mem_filter.mp he).1, rfl⟩
  refine ⟨?_, ?_, ?_, ?_⟩
  · unfold createProxy
    split_ifs with hg
    · exact hinv
    · rcases hfind : findAvailablePort bindOk st with _ | p
      · exact hinv
      · intro r hr
        simp only [regKeys, List.map_cons, List.mem_cons] at hr
        rcases hr with rfl | hr
        · exact ⟨(findAvailablePort_mem bindOk st _ hfind).1,
            (findAvailablePort_mem bindOk st _ hfind).2.1⟩
        · exact hinv r hr
  · unfold stopProxy
    rcases st.activeProxies.lookup q with _ | s
    · exact hinv
    · intro r hr
      exact hinv r (herase _ _ _ hr)
  · intro r hr
    exact hinv r (herase _ _ _ hr)
  · intro r hr
    simp [regKeys, shutdownService] at hr

/-- Witness for `registry_inv_preserved`: a state with range
`[10000,10002]` and one registered session at 10001. -/
theorem registry_inv_preserved_witness :
    RegistryInv (createProxy (fun _ => true)
        ⟨10000, 10002, [(10001, ⟨⟨[97], 9999⟩⟩)], []⟩ [98] (JVal.num 9999)).2
    ∧ RegistryInv (stopProxy ⟨10000, 10002, [(10001, ⟨⟨[97], 9999⟩⟩)], []⟩ 10001).2
    ∧ RegistryInv (handleUdpError ⟨10000, 10002, [(10001, ⟨⟨[97], 9999⟩⟩)], []⟩ 10001)
    ∧ RegistryInv (shutdownService ⟨10000, 10002, [(10001, ⟨⟨[97], 9999⟩⟩)], []⟩) :=
  registry_inv_preserved (fun _ => true) ⟨10000, 10002, [(10001, ⟨⟨[97], 9999⟩⟩)], []⟩
    [98] (JVal.num 9999) 10001 (by unfold RegistryInv; decide)

/-- C5 counterexample: `createProxy` accepts a numeric `proxyHostPort` that
is not a valid port number. With address "1.2.3.4" and `proxyHostPort`
70000 (a number, but outside `[1,65535]`) it returns a success response
carrying the allocated port 10000 instead of the `InvalidInput` error the
claim requires. -/
theorem createProxy_accepts_out_of_range_port :
    (createProxy (fun _ => true) ⟨10000, 10000, [], []⟩
        [49, 46, 50, 46, 51, 46, 52] (JVal.num 70000)).1 =
      ⟨"success", some "create", some "Proxy created on port 10000",
        some 10000, none⟩
    ∧ ¬(1 ≤ (70000 : Int) ∧ (70000 : Int) ≤ 65535)
    ∧ (createProxy (fun _ => true) ⟨10000, 10000, [], []⟩
        [49, 46, 50, 46, 51, 46, 52] (JVal.num 70000)).2.activeProxies =
      [(10000, ⟨⟨[49, 46, 50, 46, 51, 46, 52], 70000⟩⟩)] := by
  refine ⟨rfl, by omega, rfl⟩

/-- C5, amended: `createProxy` fails with the `InvalidInput` error exactly
when the address is empty or `proxyHostPort` is not a number (the code
checks only `typeof proxyHostPort === 'number'`, so numeric values outside
`[1,65535]` are accepted); it fails with `NoAvailablePort` when the
allocator returns none; otherwise it registers a session on the allocated
port with the requested proxy host and returns that port in a success
response. -/
theorem createProxy_spec (bindOk : Nat → Bool) (st : ServiceState)
    (addr : List Nat) (pv : JVal) :
    ((addr = [] ∨ pv.isNum = false) →
        createProxy bindOk st addr pv =
          (⟨"error", some "create", some "Invalid proxyHostAddress or proxyHostPort.",
            none, none⟩, st))
    ∧ (addr ≠ [] → pv.isNum = true → findAvailablePort bindOk st = none →
        createProxy bindOk st addr pv =
          (⟨"error", some "create", some "No available proxy ports.", none, none⟩, st))
    ∧ (∀ p, addr ≠ [] → pv.isNum = true → findAvailablePort bindOk st = some p →
        (createProxy bindOk st addr pv).1 =
          ⟨"success", some "create", some ("Proxy created on port " ++ toString p),
            some p, none⟩
        ∧ (createProxy bindOk st addr pv).2.activeProxies.lookup p =
            some ⟨⟨addr, pv.toInt⟩⟩) := by
  refine ⟨fun h => ?_, fun h1 h2 h3 => ?_, fun p h1 h2 h3 => ?_⟩
  · unfold createProxy
    rw [if_pos h]
  · unfold createProxy
    rw [if_neg (by rw [h2]; simp [h1]), h3]
  · unfold createProxy
    rw [if_neg (by rw [h2]; simp [h1]), h3]
    exact ⟨rfl, by simp [List.lookup]⟩

/-- Witness for `createProxy_spec`: the three branches at concrete inputs
(empty address; exhausted allocator; a successful creation at 10000). -/
theorem createProxy_spec_witness :
    createProxy (fun _ => true) ⟨10000, 10000, [], []⟩ [] (JVal.num 9999) =
      (⟨"error", some "create", some "Invalid proxyHostAddress or proxyHostPort.",
        none, none⟩, ⟨10000, 10000, [], []⟩)
    ∧ createProxy (fun _ => false) ⟨10000, 10000, [], []⟩ [97] (JVal.num 9999) =
      (⟨"error", some "create", some "No available proxy ports.", none, none⟩,
        ⟨10000, 10000, [], []⟩)
    ∧ (createProxy (fun _ => true) ⟨10000, 10000, [], []⟩ [97] (JVal.num 9999)).1 =
      ⟨"success", some "create", some ("Proxy created on port " ++ toString 10000),
        some 10000, none⟩
    ∧ (createProxy (fun _ => true) ⟨10000, 10000, [], []⟩
        [97] (JVal.num 9999)).2.activeProxies.lookup 10000 =
      some ⟨⟨[97], (JVal.num 9999).toInt⟩⟩ := by
  refine ⟨(createProxy_spec (fun _ => true) ⟨10000, 10000, [], []⟩ [] (JVal.num 9999)).1
      (Or.inl rfl), ?_, ?_, ?_⟩
  · exact (createProxy_spec (fun _ => false) ⟨10000, 10000, [], []⟩ [97]
      (JVal.num 9999)).2.1 (by simp) rfl rfl
  · exact ((createProxy_spec (fun _ => true) ⟨10000, 10000, [], []⟩ [97]
      (JVal.num 9999)).2.2 10000 (by simp) rfl rfl).1
  · exact ((createProxy_spec (fun _ => true) ⟨10000, 10000, [], []⟩ [97]
      (JVal.num 9999)).2.2 10000 (by simp) rfl rfl).2

/-- After `activeProxies.delete(p)`, `p` is no longer a key. -/
lemma lookup_regErase (r : List (Nat × ActiveProxy)) (q : Nat) :
    (regErase r q).lookup q = none := by
  induction r with
  | nil => rfl
  | cons e r ih =>
      unfold regErase at ih ⊢
      rw [List.filter_cons]
      by_cases h : e.1 = q
      · rw [if_neg (by simp [h])]
        exact ih
      · rw [if_pos (by simp [h])]
        obtain ⟨k, v⟩ := e
        have hbeq : (q == k) = false := by
          simp only [beq_eq_false_iff_ne]
          exact fun hq => h (by simp [hq])
        simp only [List.lookup, hbeq]
        exact ih

/-- C4: `stopProxy(port)` fails with the `NotFound` error when no session
is registered at `port`, and otherwise closes the session's socket,
removes the registry entry and succeeds; consequently a `createProxy`
whose success response carries port `p` is followed by a succeeding
`stopProxy p`, and a second `stopProxy p` fails with `NotFound` instead of
silently succeeding. -/
theorem stopProxy_spec (st : ServiceState) (q : Nat) (bindOk : Nat → Bool)
    (addr : List Nat) (pv : JVal) (p : Nat) :
    (st.activeProxies.lookup q = none →
      stopProxy st q = (⟨"error", some "stop", some "Proxy not found.", none, none⟩, st))
    ∧ (∀ s, st.activeProxies.lookup q = some s →
        (stopProxy st q).1.status = "success"
        ∧ (stopProxy st q).2.activeProxies.lookup q = none
        ∧ q ∈ (stopProxy st q).2.closedSockets)
    ∧ ((createProxy bindOk st addr pv).1.proxyPort = some p →
        (stopProxy (createProxy bindOk st addr pv).2 p).1.status = "success"
        ∧ (stopProxy (stopProxy (createProxy bindOk st addr pv).2 p).2 p).1 =
            ⟨"error", some "stop", some "Proxy not found.", none, none⟩) := by
  have hstop_none : ∀ (st' : ServiceState), st'.activeProxies.lookup p = none →
      stopProxy st' p =
        (⟨"error", some "stop", some "Proxy not found.", none, none⟩, st') := by
    intro st' h
    unfold stopProxy
    rw [h]
  have hstop_ok : ∀ (st' : ServiceState) (s : ActiveProxy),
      st'.activeProxies.lookup p = some s →
      (stopProxy st' p).1.status = "success"
      ∧ (stopProxy st' p).2.activeProxies.lookup p = none
      ∧ p ∈ (stopProxy st' p).2.closedSockets := by
    intro st' s hs
    unfold stopProxy
    rw [hs]
    exact ⟨rfl, lookup_regErase _ _, by simp⟩
  refine ⟨fun h => ?_, fun s hs => ?_, fun hcreate => ?_⟩
  · unfold stopProxy
    rw [h]
  · unfold stopProxy
    rw [hs]
    exact ⟨rfl, lookup_regErase _ _, by simp⟩
  · unfold createProxy at hcreate ⊢
    split_ifs at hcreate ⊢ with hg
    rcases hfind : findAvailablePort bindOk st with _ | r
    · rw [hfind] at hcreate
      exact Option.noConfusion hcreate
    · rw [hfind] at hcreate
      have hrp : r = p := Option.some.inj hcreate
      subst hrp
      have key := hstop_ok ⟨st.minProxyPort, st.maxProxyPort,
          (r, ⟨⟨addr, pv.toInt⟩⟩) :: st.activeProxies, st.closedSockets⟩
          ⟨⟨addr, pv.toInt⟩⟩ (by simp [List.lookup])
      exact ⟨key.1, congrArg Prod.fst (hstop_none _ key.2.1)⟩

/-- Witness for `stopProxy_spec`: stop on an empty registry is `NotFound`;
stop of a registered session succeeds; create-then-stop-then-stop on port
10000. -/
theorem stopProxy_spec_witness :
    (stopProxy ⟨10000, 10000, [], []⟩ 10000 =
      (⟨"error", some "stop", some "Proxy not found.", none, none⟩,
        ⟨10000, 10000, [], []⟩))
    ∧ ((stopProxy ⟨10000, 10000, [(10000, ⟨⟨[97], 9999⟩⟩)], []⟩ 10000).1.status = "success"
        ∧ (stopProxy ⟨10000, 10000, [(10000, ⟨⟨[97], 9999⟩⟩)], []⟩
            10000).2.activeProxies.lookup 10000 = none
        ∧ 10000 ∈ (stopProxy ⟨10000, 10000, [(10000, ⟨⟨[97], 9999⟩⟩)], []⟩
            10000).2.closedSockets)
    ∧ ((stopProxy (createProxy (fun _ => true) ⟨10000, 10000, [], []⟩
          [97] (JVal.num 9999)).2 10000).1.status = "success"
        ∧ (stopProxy (stopProxy (createProxy (fun _ => true) ⟨10000, 10000, [], []⟩
            [97] (JVal.num 9999)).2 10000).2 10000).1 =
          ⟨"error", some "stop", some "Proxy not found.", none, none⟩) := by
  refine ⟨?_, ?_, ?_⟩
  · exact (stopProxy_spec ⟨10000, 10000, [], []⟩ 10000 (fun _ => true) [97]
      (JVal.num 9999) 10000).1 rfl
  · exact (stopProxy_spec ⟨10000, 10000, [(10000, ⟨⟨[97], 9999⟩⟩)], []⟩ 10000
      (fun _ => true) [97] (JVal.num 9999) 10000).2.1 ⟨⟨[97], 9999⟩⟩ rfl
  · exact (stopProxy_spec ⟨10000, 10000, [], []⟩ 10000 (fun _ => true) [97]
      (JVal.num 9999) 10000).2.2 rfl

/-- Observable actions of the per-session `data` callback: a `socket.send`
(payload, destination port, destination address — all sends go through the
session's one bound socket), the `console.warn`-and-return taken on a
decode failure, or an exception escaping the callback (the encode call is
not wrapped in try/catch). -/
inductive RelayEffect where
  | send (payload : List Nat) (port : Int) (address : List Nat)
  | warnDrop (msg : String)
  | raiseUncaught (msg : String)
  deriving DecidableEq, Repr

/-- The per-session `data` callback from `src/ProxBoardService.ts` lines
255-276: classify the sender by `address === proxyHost.address && port ===
proxyHost.port`; from the proxy host, decode and forward the payload to
the frame's target (decode failure: warn and return); from anyone else,
encode `(senderAddress, senderPort, buf)` and send the frame to the proxy
host. -/
def udpData (proxyHost : Endpoint) (senderAddress : List Nat) (senderPort : Int)
    (buf : List Nat) : List RelayEffect :=
  if senderAddress = proxyHost.address ∧ senderPort = proxyHost.port then
    match decodeProxyMessage buf with
    | .error e => [.warnDrop ("Invalid message from proxyHost: " ++ e)]
    | .ok f => [.send f.payload (f.targetPort : Int) f.targetHost]
  else
    match encodeProxyMessage senderAddress senderPort buf with
    | .error e => [.raiseUncaught e]
    | .ok m => [.send m proxyHost.port proxyHost.address]

/-- One datagram delivered to a relay session: the `data` callback never
touches `activeProxies` (only the socket `error` callback does), so the
service state is returned unchanged alongside the effects. -/
def sessionDatagramStep (st : ServiceState) (proxyHost : Endpoint)
    (senderAddress : List Nat) (senderPort : Int) (buf : List Nat) :
    ServiceState × List RelayEffect :=
  (st, udpData proxyHost senderAddress senderPort buf)

/-- C2: for every inbound datagram (sender addresses are at most 255 bytes
and sender ports lie in `[1,65535]`, as every real UDP source does): if
the sender equals the session's proxy host, the datagram is decoded — on
success exactly the decoded payload is sent to the frame's target over the
same socket, on failure the datagram is only logged and dropped — and in
both cases the session state is unchanged (the session is not terminated);
if the sender is anyone else, the frame encoding of (sender address,
sender port, raw bytes) is sent to the proxy host. -/
theorem udp_data_classifier (st : ServiceState) (ph : Endpoint)
    (sAddr : List Nat) (sPort : Int) (buf : List Nat)
    (haddr : sAddr.length ≤ 255) (hp1 : 1 ≤ sPort) (hp2 : sPort ≤ 65535) :
    (sAddr = ph.address ∧ sPort = ph.port →
      (∀ e, decodeProxyMessage buf = .error e →
        sessionDatagramStep st ph sAddr sPort buf =
          (st, [.warnDrop ("Invalid message from proxyHost: " ++ e)]))
      ∧ (∀ f, decodeProxyMessage buf = .ok f →
        sessionDatagramStep st ph sAddr sPort buf =
          (st, [.send f.payload (f.targetPort : Int) f.targetHost])))
    ∧ (¬(sAddr = ph.address ∧ sPort = ph.port) →
        sessionDatagramStep st ph sAddr sPort buf =
          (st, [.send ([sAddr.length] ++ sAddr ++
              [sPort.toNat / 256, sPort.toNat % 256] ++ buf)
            ph.port ph.address])) := by
  have henc : encodeProxyMessage sAddr sPort buf =
      .ok ([sAddr.length] ++ sAddr ++ [sPort.toNat / 256, sPort.toNat % 256] ++ buf) := by
    unfold encodeProxyMessage
    rw [if_neg (by omega), if_neg (by omega)]
  refine ⟨fun hfrom => ⟨fun e he => ?_, fun f hf => ?_⟩, fun hother => ?_⟩
  · unfold sessionDatagramStep udpData
    rw [if_pos hfrom, he]
  · unfold sessionDatagramStep udpData
    rw [if_pos hfrom, hf]
  · unfold sessionDatagramStep udpData
    rw [if_neg hother, henc]

/-- Witness for `udp_data_classifier`: proxy host 127.0.0.1:9999 (address
bytes [49,50,55,...]), a valid frame from the proxy host, a malformed
frame from the proxy host, and a datagram from another sender. -/
theorem udp_data_classifier_witness :
    ((([49] : List Nat) = (⟨[49], 9999⟩ : Endpoint).address ∧ (9999 : Int) = (⟨[49], 9999⟩ : Endpoint).port →
      (∀ e, decodeProxyMessage [1, 65, 0, 53, 99] = .error e →
        sessionDatagramStep ⟨10000, 10000, [], []⟩ ⟨[49], 9999⟩ [49] 9999 [1, 65, 0, 53, 99] =
          (⟨10000, 10000, [], []⟩, [.warnDrop ("Invalid message from proxyHost: " ++ e)]))
      ∧ (∀ f, decodeProxyMessage [1, 65, 0, 53, 99] = .ok f →
        sessionDatagramStep ⟨10000, 10000, [], []⟩ ⟨[49], 9999⟩ [49] 9999 [1, 65, 0, 53, 99] =
          (⟨10000, 10000, [], []⟩, [.send f.payload (f.targetPort : Int) f.targetHost])))
    ∧ (¬(([49] : List Nat) = (⟨[49], 9999⟩ : Endpoint).address ∧ (9999 : Int) = (⟨[49], 9999⟩ : Endpoint).port) →
        sessionDatagramStep ⟨10000, 10000, [], []⟩ ⟨[49], 9999⟩ [49] 9999 [1, 65, 0, 53, 99] =
          (⟨10000, 10000, [], []⟩, [.send (([(([49] : List Nat)).length] ++ [49] ++
              [(9999 : Int).toNat / 256, (9999 : Int).toNat % 256] ++ [1, 65, 0, 53, 99]))
            (⟨[49], 9999⟩ : Endpoint).port (⟨[49], 9999⟩ : Endpoint).address])))
    ∧ sessionDatagramStep ⟨10000, 10000, [], []⟩ ⟨[49], 9999⟩ [50] 1234 [7, 8] =
        (⟨10000, 10000, [], []⟩, [.send ([1, 50, 1234 / 256, 1234 % 256, 7, 8]) 9999 [49]]) := by
  constructor
  · exact udp_data_classifier ⟨10000, 10000, [], []⟩ ⟨[49], 9999⟩ [49] 9999
      [1, 65, 0, 53, 99] (by decide) (by decide) (by decide)
  · have h := (udp_data_classifier ⟨10000, 10000, [], []⟩ ⟨[49], 9999⟩ [50] 1234
      [7, 8] (by decide) (by decide) (by decide)).2 (by decide)
    rw [h]
    decide

/-- `ws.data` of a control connection: the `authenticated` flag and
whether the auth-deadline timer is still armed (`authTimeout` present and
not cleared). -/
structure WebSocketData where
  authenticated : Bool
  authTimeoutArmed : Bool
  deriving DecidableEq, Repr

/-- The auth deadline duration passed to `setTimeout` (milliseconds). -/
def authTimeoutMs : Nat := 5000

/-- `handleWebSocketOpen` (`src/ProxBoardService.ts` lines 125-142):
initialize `ws.data` unauthenticated and arm the `authTimeoutMs` timer. -/
def handleWebSocketOpen : WebSocketData :=
  ⟨false, true⟩

/-- Observable control-channel actions: `ws.send` of a JSON response, or
`ws.close(code, reason)`. -/
inductive WsEffect where
  | send (r : Resp)
  | close (code : Nat) (reason : String)
  deriving DecidableEq, Repr

/-- The `setTimeout` callback armed in `handleWebSocketOpen`: when it
fires on a still-unauthenticated connection it closes with code 4001. -/
def onAuthTimeout (d : WebSocketData) : List WsEffect :=
  if d.authenticated = false then [.close 4001 "Authentication required"] else []

/-- An inbound control message after `JSON.parse`: either the parse threw
(with the error's message), or an object whose fields the handlers read.
Absent fields are `none` (JavaScript `undefined`). -/
inductive WsMsg where
  | unparsable (errMsg : String)
  | cmd (action : Option String) (token : Option String)
      (proxyHostAddress : Option (List Nat)) (proxyHostPort : Option JVal)
      (proxyPort : Option Nat)
  deriving DecidableEq, Repr

/-- `handleAuthenticatedMessage` (`src/ProxBoardService.ts` lines
177-197): dispatch on `action` to list/create/stop, else the unknown-
action error. A missing `proxyPort` makes `activeProxies.get` miss, hence
the `NotFound` response. -/
def handleAuthenticatedMessage (bindOk : Nat → Bool) (st : ServiceState)
    (action : Option String) (proxyHostAddress : Option (List Nat))
    (proxyHostPort : Option JVal) (proxyPort : Option Nat) : Resp × ServiceState :=
  if action = some "list" then (listProxies st, st)
  else if action = some "create" then
    createProxy bindOk st (proxyHostAddress.getD []) (proxyHostPort.getD JVal.notNum)
  else if action = some "stop" then
    match proxyPort with
    | some q => stopProxy st q
    | none => (⟨"error", some "stop", some "Proxy not found.", none, none⟩, st)
  else (⟨"error", none, some "Unknown action.", none, none⟩, st)

/-- `handleWebSocketMessage` (`src/ProxBoardService.ts` lines 144-175):
before authentication, only `{action:'auth', token:<accessToken>}`
authenticates (clearing the deadline timer and acknowledging success);
any other parsed message closes with 4003, and a parse failure closes
with 4002; a parse failure after authentication only reports the error.
After authentication, messages are dispatched and the response sent. -/
def handleWebSocketMessage (bindOk : Nat → Bool) (accessToken : String)
    (st : ServiceState) (d : WebSocketData) (m : WsMsg) :
    ServiceState × WebSocketData × List WsEffect :=
  match m with
  | .unparsable errMsg =>
      if d.authenticated = false then
        (st, d, [.send ⟨"error", none, some "Malformed auth message", none, none⟩,
                 .close 4002 "Malformed auth message"])
      else
        (st, d, [.send ⟨"error", none, some errMsg, none, none⟩])
  | .cmd action token proxyHostAddress proxyHostPort proxyPort =>
      if d.authenticated = false then
        if action = some "auth" ∧ token = some accessToken then
          (st, ⟨true, false⟩,
           [.send ⟨"success", none, some "Authenticated", none, none⟩])
        else
          (st, d, [.send ⟨"error", none, some "Invalid token", none, none⟩,
                   .close 4003 "Invalid token"])
      else
        ((handleAuthenticatedMessage bindOk st action proxyHostAddress
            proxyHostPort proxyPort).2, d,
         [.send (handleAuthenticatedMessage bindOk st action proxyHostAddress
            proxyHostPort proxyPort).1])

/-- C8: on a fresh (unauthenticated) control connection, the armed
5-second deadline firing closes with the auth-timeout reason (4001); an
`auth` message with a wrong token closes with the invalid-token reason
(4003); an unparsable message closes with the malformed-auth reason
(4002); the three close effects are pairwise distinct; a correct token
disarms the deadline timer and acknowledges success; and from the
authenticated state every `list`/`create`/`stop` command is dispatched
and answered with a single send and no close. -/
theorem control_channel_auth (bindOk : Nat → Bool) (accessToken : String)
    (st : ServiceState) (t : Option String) (e : String)
    (addr : Option (List Nat)) (pp : Option JVal) (sp : Option Nat)
    (a : Option String) (hwrong : t ≠ some accessToken) :
    (authTimeoutMs = 5000
      ∧ onAuthTimeout handleWebSocketOpen = [.close 4001 "Authentication required"])
    ∧ handleWebSocketMessage bindOk accessToken st handleWebSocketOpen
        (.cmd (some "auth") t addr pp sp) =
      (st, handleWebSocketOpen,
       [.send ⟨"error", none, some "Invalid token", none, none⟩,
        .close 4003 "Invalid token"])
    ∧ handleWebSocketMessage bindOk accessToken st handleWebSocketOpen (.unparsable e) =
      (st, handleWebSocketOpen,
       [.send ⟨"error", none, some "Malformed auth message", none, none⟩,
        .close 4002 "Malformed auth message"])
    ∧ ((WsEffect.close 4001 "Authentication required" ≠ .close 4003 "Invalid token")
      ∧ (WsEffect.close 4001 "Authentication required" ≠ .close 4002 "Malformed auth message")
      ∧ (WsEffect.close 4003 "Invalid token" ≠ .close 4002 "Malformed auth message"))
    ∧ handleWebSocketMessage bindOk accessToken st handleWebSocketOpen
        (.cmd (some "auth") (some accessToken) addr pp sp) =
      (st, ⟨true, false⟩, [.send ⟨"success", none, some "Authenticated", none, none⟩])
    ∧ ((a = some "list" ∨ a = some "create" ∨ a = some "stop") →
        handleWebSocketMessage bindOk accessToken st ⟨true, false⟩ (.cmd a t addr pp sp) =
          ((handleAuthenticatedMessage bindOk st a addr pp sp).2, ⟨true, false⟩,
           [.send (handleAuthenticatedMessage bindOk st a addr pp sp).1])
        ∧ ∀ c r, WsEffect.close c r ∉
            (handleWebSocketMessage bindOk accessToken st ⟨true, false⟩
              (.cmd a t addr pp sp)).2.2) := by
  refine ⟨⟨rfl, rfl⟩, ?_, rfl, ⟨by simp, by simp, by simp⟩, ?_, fun ha => ⟨?_, ?_⟩⟩
  · have hcond : ¬(some "auth" = some "auth" ∧ t = some accessToken) :=
      fun hc => hwrong hc.2
    simp [handleWebSocketMessage, handleWebSocketOpen, hcond]
    exact hwrong
  · simp [handleWebSocketMessage, handleWebSocketOpen]
  · rfl
  · intro c r hc
    simp [handleWebSocketMessage] at hc

/-- Witness for `control_channel_auth`: token "secret", wrong token
"wrong", then a `list` command on the authenticated connection. -/
theorem control_channel_auth_witness :
    handleWebSocketMessage (fun _ => true) "secret" ⟨10000, 10000, [], []⟩
        handleWebSocketOpen (.cmd (some "auth") (some "wrong") none none none) =
      (⟨10000, 10000, [], []⟩, handleWebSocketOpen,
       [.send ⟨"error", none, some "Invalid token", none, none⟩,
        .close 4003 "Invalid token"])
    ∧ handleWebSocketMessage (fun _ => true) "secret" ⟨10000, 10000, [], []⟩
        ⟨true, false⟩ (.cmd (some "list") (some "wrong") none none none) =
      ((handleAuthenticatedMessage (fun _ => true) ⟨10000, 10000, [], []⟩
          (some "list") none none none).2, ⟨true, false⟩,
       [.send (handleAuthenticatedMessage (fun _ => true) ⟨10000, 10000, [], []⟩
          (some "list") none none none).1]) := by
  have h := control_channel_auth (fun _ => true) "secret" ⟨10000, 10000, [], []⟩
    (some "wrong") "x" none none none (some "list") (by simp)
  exact ⟨h.2.1, (h.2.2.2.2.2 (Or.inl rfl)).1⟩
